import Mathlib

/-!
Verification of the TrackEx desktop agent core against its design notes.

Each Rust module relevant to the checked properties is shallowly embedded:
pure logic becomes Lean functions, the SQLite screenshot queue becomes a list
of rows plus a list of files on disk, HTTP and filesystem outcomes become
explicit parameters, and long-running loops become recursion over a finite
trace of external outcomes.
-/

namespace TrackEx

/-! ## Screenshot upload queue
Embedding of src-tauri/src/storage/screenshot_queue.rs.
The SQLite table is a list of rows; the temp folder is a list of file paths.
Timestamps are integers (seconds). -/

namespace ScreenshotQueue

/-- Maximum number of retry attempts before giving up (MAX_RETRIES). -/
def MAX_RETRIES : Nat := 5

/-- Base retry delay in seconds, doubles with each retry (BASE_RETRY_DELAY_SECS). -/
def BASE_RETRY_DELAY_SECS : Int := 60

/-- One row of the screenshot_queue table (struct QueuedScreenshot).
retry_count is stored as a machine integer in the source but starts at 0 and is
only ever incremented, so it is modelled as a natural number. -/
structure QueuedScreenshot where
  id : Int
  file_path : String
  employee_id : String
  device_id : String
  taken_at : Int
  retry_count : Nat
  last_attempt : Option Int
  created_at : Int
deriving DecidableEq, Repr

/-- The exponential backoff delay used by get_pending_uploads and
mark_upload_failed: BASE_RETRY_DELAY_SECS * (1 << retry_count.min(6)). -/
def retryDelay (retry_count : Nat) : Int :=
  BASE_RETRY_DELAY_SECS * 2 ^ (min retry_count 6)

/-- The backoff test inside get_pending_uploads: an item is skipped when
now < last_attempt + retry_delay; an item with no last_attempt passes. -/
def readyForRetry (now : Int) (s : QueuedScreenshot) : Bool :=
  match s.last_attempt with
  | none => true
  | some t => !decide (now < t + retryDelay s.retry_count)

/-- Comparison used to model the SQL ORDER BY created_at ASC. -/
def created_le (a b : QueuedScreenshot) : Bool :=
  decide (a.created_at ≤ b.created_at)

/-- get_pending_uploads(limit): SELECT rows WHERE retry_count < MAX_RETRIES
ORDER BY created_at ASC LIMIT ?, then keep only rows past their retry delay
whose file still exists.  `fe` tells which paths exist on disk. -/
def get_pending_uploads (queue : List QueuedScreenshot) (limit : Nat) (now : Int)
    (fe : String → Bool) : List QueuedScreenshot :=
  let candidates :=
    (((queue.filter (fun s => decide (s.retry_count < MAX_RETRIES))).mergeSort
        created_le).take limit)
  candidates.filter (fun s => readyForRetry now s && fe s.file_path)

/-- Queue table plus the temp folder contents. -/
structure QueueState where
  rows : List QueuedScreenshot
  files : List String
deriving DecidableEq, Repr

/-- The row update performed by mark_upload_failed's UPDATE statement. -/
def bumpRetry (now : Int) (r : QueuedScreenshot) : QueuedScreenshot :=
  { r with retry_count := r.retry_count + 1, last_attempt := some now }

/-- mark_upload_failed(id): increment retry_count and stamp last_attempt on the
row with this id, then re-read the row; if its (new) retry_count has reached
MAX_RETRIES, delete the artifact file and the row. -/
def mark_upload_failed (st : QueueState) (id : Int) (now : Int) : QueueState :=
  let rows1 := st.rows.map (fun r => if r.id = id then bumpRetry now r else r)
  match rows1.find? (fun r => decide (r.id = id)) with
  | some r =>
      if MAX_RETRIES ≤ r.retry_count then
        { rows := rows1.filter (fun q => decide (q.id ≠ id)),
          files := st.files.filter (fun p => decide (p ≠ r.file_path)) }
      else
        { rows := rows1, files := st.files }
  | none => { rows := rows1, files := st.files }

end ScreenshotQueue

/-! ## Event batcher
Embedding of src-tauri/src/sampling/event_batcher.rs.
The in-memory batch is the list of pending events; the outcome of a send and
of the offline store are explicit parameters. -/

namespace EventBatcher

/-- Maximum events to hold in memory before forcing a send (MAX_BATCH_SIZE). -/
def MAX_BATCH_SIZE : Nat := 50

/-- A single event waiting to be batched (struct BatchedEvent); the JSON
payload is opaque here. -/
structure BatchedEvent where
  event_type : String
  timestamp : Int
  data : String
deriving DecidableEq, Repr

/-- The matches! test in queue_event for event types that flush immediately. -/
def is_high_priority (event_type : String) : Bool :=
  event_type == "clock_in" || event_type == "clock_out" ||
  event_type == "idle_start" || event_type == "idle_end" ||
  event_type == "screenshot_taken" || event_type == "screenshot_failed"

/-- Result of one queue_event call: the new pending batch, and the batch
handed to flush_events when a flush was triggered. -/
structure QueueOutcome where
  pending : List BatchedEvent
  flushed : Option (List BatchedEvent)
deriving DecidableEq, Repr

/-- queue_event: push the event; a high-priority event flushes the whole
batch at once, otherwise a flush is forced when the batch size reaches
MAX_BATCH_SIZE. -/
def queue_event (pending : List BatchedEvent) (e : BatchedEvent) : QueueOutcome :=
  if is_high_priority e.event_type then
    { pending := [], flushed := some (pending ++ [e]) }
  else
    let pending1 := pending ++ [e]
    if MAX_BATCH_SIZE ≤ pending1.length then
      { pending := [], flushed := some pending1 }
    else
      { pending := pending1, flushed := none }

/-- One step of feeding incoming events through queue_event while recording
every flushed batch. -/
def flushStep (acc : List BatchedEvent × List (List BatchedEvent))
    (e : BatchedEvent) : List BatchedEvent × List (List BatchedEvent) :=
  let o := queue_event acc.1 e
  match o.flushed with
  | some b => (o.pending, acc.2 ++ [b])
  | none => (o.pending, acc.2)

/-- Iterate queue_event over a list of incoming events, collecting every
flushed batch in order. -/
def queue_events (pending : List BatchedEvent) (es : List BatchedEvent) :
    List BatchedEvent × List (List BatchedEvent) :=
  es.foldl flushStep (pending, [])

/-- Result of one flush_events call.  `posted` is the array payload handed to
send_batch_to_server; `queued_offline` lists the events pushed one by one
into the offline retry queue.  The offline store itself
(storage::offline_queue, not part of the embedded sources) is modelled from
the spec as an enqueue that accepts every event. -/
structure FlushOutcome where
  pending : List BatchedEvent
  posted : Option (List BatchedEvent)
  queued_offline : List BatchedEvent
deriving DecidableEq, Repr

/-- flush_events: an empty batch returns without sending; otherwise the whole
batch is swapped out and POSTed as one payload; on send failure every event of
the batch is queued individually for offline retry. -/
def flush_events (pending : List BatchedEvent) (sendOk : Bool) : FlushOutcome :=
  if pending.isEmpty then
    { pending := pending, posted := none, queued_offline := [] }
  else if sendOk then
    { pending := [], posted := some pending, queued_offline := [] }
  else
    { pending := [], posted := some pending, queued_offline := pending }

end EventBatcher

/-! ## License monitor
Embedding of src-tauri/src/sampling/license_monitor.rs.
The relevant fields of the shared AppState and the outcome of the HTTP
license check are explicit. -/

namespace LicenseMonitor

/-- The license fields of AppState (storage/mod.rs). -/
structure LicenseState where
  license_valid : Option Bool
  license_status : Option String
  last_license_check : Option Int
deriving DecidableEq, Repr

/-- Outcome of GET /api/agent/license-check-fast as seen by the caller.
`success` is a 2xx response whose JSON body parsed, carrying the optional
"valid" and "status" fields; `successBadBody` is a 2xx response whose body
failed to parse; `httpStatus` is a response with a non-2xx code, carrying the
optional "licenseStatus" field of its body; `netError` is a request that
failed before any status was received. -/
inductive CheckResponse where
  | success (valid : Option Bool) (status : Option String)
  | successBadBody
  | httpStatus (code : Nat) (licenseStatus : Option String)
  | netError (msg : String)
deriving DecidableEq, Repr

/-- Result of one check_license_and_handle_expiration call:
the updated license fields, whether handle_license_expiration was invoked,
and the function's return value. -/
structure CheckOutcome where
  state : LicenseState
  handlerInvoked : Bool
  result : Except String Bool
deriving Repr

/-- check_license_and_handle_expiration: on 2xx read "valid" (defaulting to
false when absent) and "status", store them with a timestamp, and invoke the
expiration handler when not valid; on 402 store invalid with the body's
"licenseStatus" and invoke the handler; on any other status or network error
return an error without touching the state. -/
def check_license_and_handle_expiration (st : LicenseState) (resp : CheckResponse)
    (now : Int) : CheckOutcome :=
  match resp with
  | .netError msg =>
      { state := st, handlerInvoked := false, result := .error msg }
  | .successBadBody =>
      { state := st, handlerInvoked := false, result := .error "Failed to parse response" }
  | .success validField statusField =>
      let valid := validField.getD false
      { state := { license_valid := some valid, license_status := statusField,
                   last_license_check := some now },
        handlerInvoked := !valid,
        result := .ok valid }
  | .httpStatus code licenseStatusField =>
      if code = 402 then
        { state := { license_valid := some false, license_status := licenseStatusField,
                     last_license_check := some now },
          handlerInvoked := true,
          result := .ok false }
      else
        { state := st, handlerInvoked := false,
          result := .error ("License check failed with status: " ++ toString code) }

/-- Outcome of a POST /api/ingest/events attempt: `ok code` means the request
completed and the server answered with this status code; `err` means the
request itself failed. -/
inductive PostResult where
  | ok (statusCode : Nat)
  | err (msg : String)
deriving DecidableEq, Repr

/-- The clock_out event built by handle_license_expiration. -/
structure ClockOutEvent where
  source : String
  reason : String
deriving DecidableEq, Repr

def licenseExpiredEvent : ClockOutEvent :=
  { source := "license_expiration", reason := "license_expired" }

/-- Observable effects of one handle_license_expiration call. -/
structure ExpirationOutcome where
  sessionEnded : Bool
  sent : Option ClockOutEvent
  queued : Option ClockOutEvent
deriving DecidableEq, Repr

/-- handle_license_expiration: a no-op when the user is not clocked in;
otherwise end the sessions and stop services, then build the clock_out event
with reason license_expired and POST it; if the POST fails, hand the event to
the offline queue; if the API client cannot even be constructed, only the
teardown happens. -/
def handle_license_expiration (clockedIn : Bool) (clientOk : Bool)
    (post : PostResult) : ExpirationOutcome :=
  if !clockedIn then
    { sessionEnded := false, sent := none, queued := none }
  else if clientOk then
    match post with
    | .ok _ => { sessionEnded := true, sent := some licenseExpiredEvent, queued := none }
    | .err _ => { sessionEnded := true, sent := none, queued := some licenseExpiredEvent }
  else
    { sessionEnded := true, sent := none, queued := none }

end LicenseMonitor

/-! ## License SSE stream
Embedding of src-tauri/src/sampling/license_stream.rs.
The reconnect loop is run over a finite trace of connection outcomes; event
handlers take the parsed optional JSON fields as parameters. -/

namespace LicenseStream

/-- Outcome of one connect_and_listen call: `ok` is a clean end of stream,
`errAuth` an error whose message marks an authentication failure (401),
`errOther` any other error. -/
inductive ConnOutcome where
  | ok
  | errAuth
  | errOther
deriving DecidableEq, Repr

def MAX_BACKOFF : Nat := 60

def MAX_AUTH_FAILURES : Nat := 3

/-- What the reconnect loop did on a trace: the successive sleep delays
(seconds) before each reconnect, whether it exited through the auth circuit
breaker, and how many connection attempts it made. -/
structure StreamRun where
  delays : List Nat
  stopped : Bool
  attempts : Nat
deriving DecidableEq, Repr

/-- The loop body of start_license_stream, as a function of the remaining
trace, the current backoff_seconds and the consecutive_auth_failures counter.
On Ok both are reset, then the loop sleeps backoff and doubles it (capped at
MAX_BACKOFF); on an auth error the counter is bumped and the loop breaks
without sleeping once it reaches MAX_AUTH_FAILURES; any other error resets
the counter. -/
def streamLoop : List ConnOutcome → Nat → Nat → StreamRun
  | [], _, _ => { delays := [], stopped := false, attempts := 0 }
  | .ok :: rest, _, _ =>
      let r := streamLoop rest (min (1 * 2) MAX_BACKOFF) 0
      { delays := 1 :: r.delays, stopped := r.stopped, attempts := r.attempts + 1 }
  | .errAuth :: rest, backoff, authFailures =>
      if MAX_AUTH_FAILURES ≤ authFailures + 1 then
        { delays := [], stopped := true, attempts := 1 }
      else
        let r := streamLoop rest (min (backoff * 2) MAX_BACKOFF) (authFailures + 1)
        { delays := backoff :: r.delays, stopped := r.stopped, attempts := r.attempts + 1 }
  | .errOther :: rest, backoff, _ =>
      let r := streamLoop rest (min (backoff * 2) MAX_BACKOFF) 0
      { delays := backoff :: r.delays, stopped := r.stopped, attempts := r.attempts + 1 }

/-- start_license_stream: run the reconnect loop with backoff_seconds = 1 and
consecutive_auth_failures = 0. -/
def start_license_stream (trace : List ConnOutcome) : StreamRun :=
  streamLoop trace 1 0

/-- handle_license_update (license_updated, license_renewed,
license_activated): read the event's optional "valid" field defaulting to
false, store it with "status" and a timestamp, and when not valid invoke
handle_license_invalidation.  Returns the new state and whether the
invalidation path was invoked. -/
def handle_license_update (validField : Option Bool) (statusField : Option String)
    (now : Int) : LicenseMonitor.LicenseState × Bool :=
  let valid := validField.getD false
  ({ license_valid := some valid, license_status := statusField,
     last_license_check := some now },
   !valid)

end LicenseStream

/-! ## Job polling
Embedding of src-tauri/src/api/job_polling.rs.
The HTTP fetch and the execution of each job are explicit parameters. -/

namespace JobPolling

/-- A remote job as the poller sees it; the payload is opaque. -/
structure Job where
  jobId : Option String
  jobType : Option String
  payload : String
deriving DecidableEq, Repr

/-- The parsed body of GET /api/ingest/jobs: body["jobs"].as_array() and
body["cursor"].as_str(), each possibly absent. -/
structure JobsResponse where
  jobs : Option (List Job)
  cursor : Option String
deriving DecidableEq, Repr

/-- Outcome of the fetch as seen by poll_jobs: `err` covers client-creation
failure, a failed request, a non-success status and a body that failed to
parse; `ok` is a successful fetch with its parsed body. -/
inductive FetchResult where
  | err (msg : String)
  | ok (resp : JobsResponse)
deriving DecidableEq, Repr

/-- The endpoint string poll_jobs builds: the since parameter is present
exactly when a cursor is held. -/
def jobs_endpoint (lastCursor : Option String) : String :=
  match lastCursor with
  | some cursor => "/api/ingest/jobs?since=" ++ cursor
  | none => "/api/ingest/jobs"

/-- Result of one poll_jobs call: the endpoint used, the cursor afterwards,
the jobs handed to process_job in order with each one's outcome, and the
function's return value. -/
structure PollOutcome where
  endpoint : String
  cursor : Option String
  processed : List (Job × Bool)
  result : Except String Unit
deriving Repr

/-- poll_jobs: build the endpoint from the held cursor; on a failed fetch
return the error leaving the cursor unchanged; on a successful fetch run
process_job on every returned job in order (a failure is only logged), then
take the response's cursor when it is a string, keeping the old one
otherwise. -/
def poll_jobs (lastCursor : Option String) (fetch : FetchResult)
    (runJob : Job → Bool) : PollOutcome :=
  match fetch with
  | .err msg =>
      { endpoint := jobs_endpoint lastCursor, cursor := lastCursor,
        processed := [], result := .error msg }
  | .ok resp =>
      { endpoint := jobs_endpoint lastCursor,
        cursor := match resp.cursor with
          | some c => some c
          | none => lastCursor,
        processed := (resp.jobs.getD []).map (fun j => (j, runJob j)),
        result := .ok () }

end JobPolling

/-! ## Concrete sample data used to instantiate the theorems -/

namespace Samples

/-- A queued screenshot on its second retry (retry_count = 1). -/
def shotA : ScreenshotQueue.QueuedScreenshot :=
  { id := 1, file_path := "a.png", employee_id := "e1", device_id := "d1",
    taken_at := 0, retry_count := 1, last_attempt := some 100, created_at := 0 }

/-- A fresh queued screenshot that has never been attempted. -/
def shotB : ScreenshotQueue.QueuedScreenshot :=
  { id := 2, file_path := "b.png", employee_id := "e1", device_id := "d1",
    taken_at := 5, retry_count := 0, last_attempt := none, created_at := 5 }

/-- A queue state holding only shotB and its artifact file. -/
def stateB : ScreenshotQueue.QueueState :=
  { rows := [shotB], files := ["b.png"] }

/-- A low-priority telemetry event. -/
def evLow : EventBatcher.BatchedEvent :=
  { event_type := "app_focus", timestamp := 0, data := "payload" }

/-- A high-priority event. -/
def evHi : EventBatcher.BatchedEvent :=
  { event_type := "clock_in", timestamp := 0, data := "payload" }

/-- A license state as it looks after a successful check. -/
def licValid : LicenseMonitor.LicenseState :=
  { license_valid := some true, license_status := some "ACTIVE",
    last_license_check := some 50 }

/-- The screenshot job of the polling scenario. -/
def jobJ1 : JobPolling.Job :=
  { jobId := some "j1", jobType := some "screenshot", payload := "p" }

/-- The fetch response of the polling scenario. -/
def respJ1 : JobPolling.JobsResponse :=
  { jobs := some [jobJ1], cursor := some "c1" }

end Samples

/-! ## Properties of the screenshot queue -/

namespace ScreenshotQueue

theorem created_le_trans : ∀ (a b c : QueuedScreenshot),
    created_le a b → created_le b c → created_le a c := by
  intro a b c hab hbc
  simp only [created_le, decide_eq_true_eq] at hab hbc ⊢
  exact le_trans hab hbc

theorem created_le_total : ∀ (a b : QueuedScreenshot),
    created_le a b || created_le b a := by
  intro a b
  simp only [created_le, Bool.or_eq_true, decide_eq_true_eq]
  exact le_total a.created_at b.created_at

theorem mem_get_pending_uploads {queue : List QueuedScreenshot} {limit : Nat}
    {now : Int} {fe : String → Bool} {s : QueuedScreenshot} :
    s ∈ get_pending_uploads queue limit now fe ↔
      s ∈ (((queue.filter (fun q => decide (q.retry_count < MAX_RETRIES))).mergeSort
          created_le).take limit)
      ∧ readyForRetry now s = true ∧ fe s.file_path = true := by
  simp [get_pending_uploads, List.mem_filter, Bool.and_eq_true, and_assoc]

/-- C1: a queued screenshot with retry_count below MAX_RETRIES and last
attempt at time t is excluded from get_pending_uploads strictly before
t plus BASE_RETRY_DELAY_SECS times 2 to the min(retry_count, 6), and included
(when its file exists and the queue fits the limit) at or after that time;
an item that was never attempted is always eligible; and the returned items
are ordered by created_at ascending. -/
theorem c1_pending_backoff_window :
    (∀ (queue : List QueuedScreenshot) (limit : Nat) (now : Int)
        (fe : String → Bool) (s : QueuedScreenshot) (t : Int),
        s.retry_count < MAX_RETRIES → s.last_attempt = some t →
        now < t + retryDelay s.retry_count →
        s ∉ get_pending_uploads queue limit now fe)
  ∧ (∀ (queue : List QueuedScreenshot) (limit : Nat) (now : Int)
        (fe : String → Bool) (s : QueuedScreenshot) (t : Int),
        s ∈ queue → s.retry_count < MAX_RETRIES → s.last_attempt = some t →
        t + retryDelay s.retry_count ≤ now → fe s.file_path = true →
        (queue.filter (fun q => decide (q.retry_count < MAX_RETRIES))).length ≤ limit →
        s ∈ get_pending_uploads queue limit now fe)
  ∧ (∀ (queue : List QueuedScreenshot) (limit : Nat) (now : Int)
        (fe : String → Bool) (s : QueuedScreenshot),
        s ∈ queue → s.retry_count < MAX_RETRIES → s.last_attempt = none →
        fe s.file_path = true →
        (queue.filter (fun q => decide (q.retry_count < MAX_RETRIES))).length ≤ limit →
        s ∈ get_pending_uploads queue limit now fe)
  ∧ (∀ (queue : List QueuedScreenshot) (limit : Nat) (now : Int)
        (fe : String → Bool),
        (get_pending_uploads queue limit now fe).Pairwise
          (fun a b => a.created_at ≤ b.created_at)) := by
  refine ⟨?_, ?_, ?_, ?_⟩
  · intro queue limit now fe s t _hrc hla hnow hmem
    rcases mem_get_pending_uploads.mp hmem with ⟨_, hready, _⟩
    unfold readyForRetry at hready
    rw [hla] at hready
    simp only [Bool.not_eq_true', decide_eq_false_iff_not, not_lt] at hready
    omega
  · intro queue limit now fe s t hmem hrc hla hnow hfe hlen
    apply mem_get_pending_uploads.mpr
    refine ⟨?_, ?_, hfe⟩
    · have hmemf : s ∈ queue.filter (fun q => decide (q.retry_count < MAX_RETRIES)) :=
        List.mem_filter.mpr ⟨hmem, by simpa using hrc⟩
      have hlen2 : ((queue.filter (fun q => decide (q.retry_count < MAX_RETRIES))).mergeSort
          created_le).length ≤ limit := by
        rw [List.length_mergeSort]; exact hlen
      rw [List.take_of_length_le hlen2]
      exact List.mem_mergeSort.mpr hmemf
    · unfold readyForRetry
      rw [hla]
      simp only [Bool.not_eq_true', decide_eq_false_iff_not, not_lt]
      omega
  · intro queue limit now fe s hmem hrc hla hfe hlen
    apply mem_get_pending_uploads.mpr
    refine ⟨?_, ?_, hfe⟩
    · have hmemf : s ∈ queue.filter (fun q => decide (q.retry_count < MAX_RETRIES)) :=
        List.mem_filter.mpr ⟨hmem, by simpa using hrc⟩
      have hlen2 : ((queue.filter (fun q => decide (q.retry_count < MAX_RETRIES))).mergeSort
          created_le).length ≤ limit := by
        rw [List.length_mergeSort]; exact hlen
      rw [List.take_of_length_le hlen2]
      exact List.mem_mergeSort.mpr hmemf
    · unfold readyForRetry
      rw [hla]
  · intro queue limit now fe
    have hs := List.sorted_mergeSort created_le_trans created_le_total
      (queue.filter (fun q => decide (q.retry_count < MAX_RETRIES)))
    have hsub : List.Sublist (get_pending_uploads queue limit now fe)
        ((queue.filter (fun q => decide (q.retry_count < MAX_RETRIES))).mergeSort
          created_le) := by
      refine List.Sublist.trans ?_ (List.take_sublist limit _)
      exact List.filter_sublist _
    have hpair := List.Pairwise.sublist hsub hs
    exact hpair.imp (fun h => by simpa [created_le] using h)

/-- Concrete instantiation of C1: with the file present and a roomy limit,
shotA (last attempt at 100, retry_count 1, delay 120) is pending at time 220
but not at time 219, and the never-attempted shotB is pending at time 0. -/
theorem c1_pending_backoff_window_witness :
    Samples.shotA ∈ get_pending_uploads [Samples.shotA] 5 220 (fun _ => true)
    ∧ Samples.shotA ∉ get_pending_uploads [Samples.shotA] 5 219 (fun _ => true)
    ∧ Samples.shotB ∈ get_pending_uploads [Samples.shotB] 5 0 (fun _ => true) := by
  refine ⟨?_, ?_, ?_⟩
  · exact c1_pending_backoff_window.2.1 [Samples.shotA] 5 220 (fun _ => true)
      Samples.shotA 100 (by simp) (by decide) rfl (by decide) rfl (by decide)
  · exact c1_pending_backoff_window.1 [Samples.shotA] 5 219 (fun _ => true)
      Samples.shotA 100 (by decide) rfl (by decide)
  · exact c1_pending_backoff_window.2.2.1 [Samples.shotB] 5 0 (fun _ => true)
      Samples.shotB (by simp) (by decide) rfl rfl (by decide)

theorem find?_bump (rows : List QueuedScreenshot) (id now : Int) (r : QueuedScreenshot)
    (hnodup : (rows.map (fun q => q.id)).Nodup) (hmem : r ∈ rows) (hid : r.id = id) :
    (rows.map (fun q => if q.id = id then bumpRetry now q else q)).find?
        (fun q => decide (q.id = id)) = some (bumpRetry now r) := by
  induction rows with
  | nil => cases hmem
  | cons x xs ih =>
    simp only [List.map_cons] at hnodup
    rcases List.nodup_cons.mp hnodup with ⟨hxnot, htail⟩
    by_cases hx : x.id = id
    · have hxr : x = r := by
        rcases List.mem_cons.mp hmem with h | h
        · exact h.symm
        · exfalso
          apply hxnot
          have hin : r.id ∈ xs.map (fun q => q.id) := List.mem_map_of_mem _ h
          rw [hid] at hin
          rw [hx]
          exact hin
      subst hxr
      simp only [List.map_cons, if_pos hx]
      rw [List.find?_cons_of_pos]
      simp [bumpRetry, hx]
    · have hr : r ∈ xs := by
        rcases List.mem_cons.mp hmem with h | h
        · rw [h] at hid
          exact absurd hid hx
        · exact h
      simp only [List.map_cons, if_neg hx]
      rw [List.find?_cons_of_neg]
      · exact ih htail hr
      · simp [hx]

theorem map_id_update (rows : List QueuedScreenshot) (id now : Int) :
    (rows.map (fun q => if q.id = id then bumpRetry now q else q)).map (fun q => q.id)
      = rows.map (fun q => q.id) := by
  rw [List.map_map]
  apply List.map_congr_left
  intro q _
  by_cases hq : q.id = id
  · simp [hq, bumpRetry]
  · simp [hq]

theorem mark_upload_failed_step (st : QueueState) (id now : Int) (r : QueuedScreenshot)
    (hnodup : (st.rows.map (fun q => q.id)).Nodup) (hmem : r ∈ st.rows)
    (hid : r.id = id) (hlt : r.retry_count + 1 < MAX_RETRIES) :
    mark_upload_failed st id now
      = { rows := st.rows.map (fun q => if q.id = id then bumpRetry now q else q),
          files := st.files } := by
  have hfind := find?_bump st.rows id now r hnodup hmem hid
  have hcond : ¬ MAX_RETRIES ≤ (bumpRetry now r).retry_count := by
    simp only [bumpRetry]
    omega
  simp only [mark_upload_failed, hfind, if_neg hcond]

theorem mark_upload_failed_evict (st : QueueState) (id now : Int) (r : QueuedScreenshot)
    (hnodup : (st.rows.map (fun q => q.id)).Nodup) (hmem : r ∈ st.rows)
    (hid : r.id = id) (hge : MAX_RETRIES ≤ r.retry_count + 1) :
    (∀ q ∈ (mark_upload_failed st id now).rows, q.id ≠ id)
    ∧ r.file_path ∉ (mark_upload_failed st id now).files := by
  have hfind := find?_bump st.rows id now r hnodup hmem hid
  have hcond : MAX_RETRIES ≤ (bumpRetry now r).retry_count := by
    simp only [bumpRetry]
    omega
  simp only [mark_upload_failed, hfind, if_pos hcond]
  constructor
  · intro q hq
    have hq2 := List.mem_filter.mp hq
    simpa using hq2.2
  · intro hmemf
    have hf2 := List.mem_filter.mp hmemf
    simp [bumpRetry] at hf2

theorem mark_fold_evicts : ∀ (times : List Int) (st : QueueState) (id : Int)
    (r : QueuedScreenshot),
    (st.rows.map (fun q => q.id)).Nodup → r ∈ st.rows → r.id = id →
    r.retry_count + times.length = MAX_RETRIES → times ≠ [] →
    (∀ q ∈ (times.foldl (fun s t => mark_upload_failed s id t) st).rows, q.id ≠ id)
    ∧ r.file_path ∉ (times.foldl (fun s t => mark_upload_failed s id t) st).files
  | [], _, _, _, _, _, _, _, hne => absurd rfl hne
  | [t], st, id, r, hnodup, hmem, hid, hcount, _ => by
    simp only [List.foldl_cons, List.foldl_nil]
    have hge : MAX_RETRIES ≤ r.retry_count + 1 := by
      simp only [List.length_cons, List.length_nil] at hcount
      omega
    exact mark_upload_failed_evict st id t r hnodup hmem hid hge
  | t :: t2 :: ts, st, id, r, hnodup, hmem, hid, hcount, _ => by
    have hlt : r.retry_count + 1 < MAX_RETRIES := by
      simp only [List.length_cons] at hcount
      omega
    have hstep := mark_upload_failed_step st id t r hnodup hmem hid hlt
    simp only [List.foldl_cons, hstep]
    have hrec := mark_fold_evicts (t2 :: ts)
      { rows := st.rows.map (fun q => if q.id = id then bumpRetry t q else q),
        files := st.files }
      id (bumpRetry t r)
      (by rw [map_id_update]; exact hnodup)
      (List.mem_map.mpr ⟨r, hmem, by simp [hid]⟩)
      (by simpa [bumpRetry] using hid)
      (by
        simp only [bumpRetry, List.length_cons] at *
        omega)
      (by simp)
    simpa only [List.foldl_cons] using hrec

/-- C2: every call to mark_upload_failed on a present row increments its
retry_count and stamps last_attempt with the call time; once the bumped
retry_count reaches MAX_RETRIES the row is deleted and its artifact file is
deleted; hence after exactly MAX_RETRIES calls on a fresh item the row and
the file are both gone. -/
theorem c2_mark_failure_evicts :
    (∀ (st : QueueState) (id now : Int) (r : QueuedScreenshot),
        (st.rows.map (fun q => q.id)).Nodup → r ∈ st.rows → r.id = id →
        r.retry_count + 1 < MAX_RETRIES →
        bumpRetry now r ∈ (mark_upload_failed st id now).rows
        ∧ (mark_upload_failed st id now).files = st.files)
  ∧ (∀ (st : QueueState) (id now : Int) (r : QueuedScreenshot),
        (st.rows.map (fun q => q.id)).Nodup → r ∈ st.rows → r.id = id →
        MAX_RETRIES ≤ r.retry_count + 1 →
        (∀ q ∈ (mark_upload_failed st id now).rows, q.id ≠ id)
        ∧ r.file_path ∉ (mark_upload_failed st id now).files)
  ∧ (∀ (st : QueueState) (id : Int) (times : List Int) (r : QueuedScreenshot),
        (st.rows.map (fun q => q.id)).Nodup → r ∈ st.rows → r.id = id →
        r.retry_count = 0 → times.length = MAX_RETRIES →
        (∀ q ∈ (times.foldl (fun s t => mark_upload_failed s id t) st).rows, q.id ≠ id)
        ∧ r.file_path ∉ (times.foldl (fun s t => mark_upload_failed s id t) st).files) := by
  refine ⟨?_, ?_, ?_⟩
  · intro st id now r hnodup hmem hid hlt
    rw [mark_upload_failed_step st id now r hnodup hmem hid hlt]
    exact ⟨List.mem_map.mpr ⟨r, hmem, by simp [hid]⟩, rfl⟩
  · intro st id now r hnodup hmem hid hge
    exact mark_upload_failed_evict st id now r hnodup hmem hid hge
  · intro st id times r hnodup hmem hid hzero hlen
    apply mark_fold_evicts times st id r hnodup hmem hid
    · omega
    · intro hnil
      rw [hnil] at hlen
      simp [MAX_RETRIES] at hlen

/-- Concrete instantiation of C2: five consecutive failures on the fresh
queued screenshot shotB evict its row and delete its artifact file. -/
theorem c2_mark_failure_evicts_witness :
    Samples.shotB ∉ (([10, 20, 30, 40, 50] : List Int).foldl
        (fun s t => mark_upload_failed s 2 t) Samples.stateB).rows
    ∧ "b.png" ∉ (([10, 20, 30, 40, 50] : List Int).foldl
        (fun s t => mark_upload_failed s 2 t) Samples.stateB).files := by
  have h := c2_mark_failure_evicts.2.2 Samples.stateB 2 [10, 20, 30, 40, 50]
    Samples.shotB (by decide) (by decide) (by decide) (by decide) (by decide)
  exact ⟨fun hmem => h.1 Samples.shotB hmem rfl, h.2⟩

end ScreenshotQueue

/-! ## Properties of the event batcher -/

namespace EventBatcher

theorem foldl_queue_low (es : List BatchedEvent) (p : List BatchedEvent)
    (fs : List (List BatchedEvent))
    (hlow : ∀ e ∈ es, is_high_priority e.event_type = false)
    (hlen : p.length + es.length < MAX_BATCH_SIZE) :
    es.foldl flushStep (p, fs) = (p ++ es, fs) := by
  induction es generalizing p fs with
  | nil => simp
  | cons e es ih =>
    have he := hlow e (List.mem_cons_self e es)
    have hlen2 : p.length + (es.length + 1) < MAX_BATCH_SIZE := by
      simpa using hlen
    have hc : ¬ MAX_BATCH_SIZE ≤ p.length + 1 := by omega
    have hq : queue_event p e = { pending := p ++ [e], flushed := none } := by
      simp [queue_event, he, hc]
    have hbody : flushStep (p, fs) e = (p ++ [e], fs) := by
      simp [flushStep, hq]
    rw [List.foldl_cons, hbody]
    rw [ih (p ++ [e]) fs
      (fun x hx => hlow x (List.mem_cons_of_mem _ hx))
      (by simp only [List.length_append, List.length_cons, List.length_nil]; omega)]
    simp

/-- C3: when a non-empty batch fails to send, flush_events pushes every event
of that batch, in order, into the offline retry queue; no event of the batch
is dropped. -/
theorem c3_flush_failure_queues_batch :
    ∀ (pending : List BatchedEvent), pending ≠ [] →
      (flush_events pending false).queued_offline = pending
      ∧ ∀ e ∈ pending, e ∈ (flush_events pending false).queued_offline := by
  intro pending hne
  have hP : pending.isEmpty = false := by
    cases pending
    · exact absurd rfl hne
    · rfl
  constructor
  · simp [flush_events, hP]
  · intro e he
    simpa [flush_events, hP] using he

/-- Concrete instantiation of C3: a failed flush of the one-event batch
queues that event offline. -/
theorem c3_flush_failure_queues_batch_witness :
    (flush_events [Samples.evLow] false).queued_offline = [Samples.evLow] :=
  (c3_flush_failure_queues_batch [Samples.evLow] (by decide)).1

/-- C8: a high-priority event flushes the whole current batch including
itself (exactly that one event when the batch was empty); low-priority events
never flush while the batch is below MAX_BATCH_SIZE, and the event that
brings the batch to MAX_BATCH_SIZE triggers a flush of all of them. -/
theorem c8_batcher_flush_policy :
    (∀ (pending : List BatchedEvent) (e : BatchedEvent),
        is_high_priority e.event_type = true →
        queue_event pending e = { pending := [], flushed := some (pending ++ [e]) })
  ∧ (∀ e : BatchedEvent, is_high_priority e.event_type = true →
        queue_event [] e = { pending := [], flushed := some [e] })
  ∧ (∀ es : List BatchedEvent,
        (∀ e ∈ es, is_high_priority e.event_type = false) →
        es.length < MAX_BATCH_SIZE →
        queue_events [] es = (es, []))
  ∧ (∀ (es : List BatchedEvent) (e : BatchedEvent),
        (∀ x ∈ es, is_high_priority x.event_type = false) →
        is_high_priority e.event_type = false →
        es.length + 1 = MAX_BATCH_SIZE →
        queue_events [] (es ++ [e]) = ([], [es ++ [e]])) := by
  refine ⟨?_, ?_, ?_, ?_⟩
  · intro p e he
    simp [queue_event, he]
  · intro e he
    simp [queue_event, he]
  · intro es hlow hlen
    unfold queue_events
    rw [foldl_queue_low es [] [] hlow (by simpa using hlen)]
    simp
  · intro es e hlow he hlen
    unfold queue_events
    rw [List.foldl_append]
    rw [foldl_queue_low es [] [] hlow
      (by simp only [List.length_nil, Nat.zero_add]; omega)]
    simp only [List.nil_append]
    have hc : MAX_BATCH_SIZE ≤ es.length + 1 := by omega
    have hq : queue_event es e = { pending := [], flushed := some (es ++ [e]) } := by
      simp [queue_event, he, hc]
    simp [flushStep, hq]

/-- Concrete instantiation of C8: a clock_in with an empty batch flushes
exactly that event; 49 low-priority events do not flush; the 50th does,
flushing all 50. -/
theorem c8_batcher_flush_policy_witness :
    queue_event [] Samples.evHi = { pending := [], flushed := some [Samples.evHi] }
    ∧ queue_events [] (List.replicate 49 Samples.evLow)
        = (List.replicate 49 Samples.evLow, [])
    ∧ queue_events [] (List.replicate 49 Samples.evLow ++ [Samples.evLow])
        = ([], [List.replicate 49 Samples.evLow ++ [Samples.evLow]]) := by
  refine ⟨?_, ?_, ?_⟩
  · exact c8_batcher_flush_policy.2.1 Samples.evHi (by decide)
  · exact c8_batcher_flush_policy.2.2.1 (List.replicate 49 Samples.evLow)
      (by decide) (by decide)
  · exact c8_batcher_flush_policy.2.2.2 (List.replicate 49 Samples.evLow)
      Samples.evLow (by decide) (by decide) (by decide)

end EventBatcher

/-! ## Properties of the license monitor -/

namespace LicenseMonitor

/-- C5: an HTTP 402 response makes the monitor store an invalid license
state (valid = some false, status from the body's licenseStatus) and invoke
the expiration handler; any other non-success status and any network error
leave the license state untouched and invoke no handler. -/
theorem c5_monitor_http_handling :
    (∀ (st : LicenseState) (now : Int) (ls : Option String),
        check_license_and_handle_expiration st (.httpStatus 402 ls) now
          = { state := { license_valid := some false, license_status := ls,
                         last_license_check := some now },
              handlerInvoked := true, result := .ok false })
  ∧ (∀ (st : LicenseState) (now : Int) (code : Nat) (ls : Option String),
        code ≠ 402 →
        (check_license_and_handle_expiration st (.httpStatus code ls) now).state = st
        ∧ (check_license_and_handle_expiration st (.httpStatus code ls) now).handlerInvoked
            = false)
  ∧ (∀ (st : LicenseState) (now : Int) (msg : String),
        (check_license_and_handle_expiration st (.netError msg) now).state = st
        ∧ (check_license_and_handle_expiration st (.netError msg) now).handlerInvoked
            = false) := by
  refine ⟨?_, ?_, ?_⟩
  · intro st now ls
    rfl
  · intro st now code ls hne
    constructor <;> simp [check_license_and_handle_expiration, hne]
  · intro st now msg
    exact ⟨rfl, rfl⟩

/-- Concrete instantiation of C5: an HTTP 500 leaves a valid license state
untouched and triggers no handler. -/
theorem c5_monitor_http_handling_witness :
    (check_license_and_handle_expiration Samples.licValid
        (.httpStatus 500 none) 60).state = Samples.licValid
    ∧ (check_license_and_handle_expiration Samples.licValid
        (.httpStatus 500 none) 60).handlerInvoked = false :=
  c5_monitor_http_handling.2.1 Samples.licValid 60 500 none (by decide)

/-- C4 as stated fails on the code: with the user clocked in but the API
client construction failing, handle_license_expiration neither sends nor
queues any clock_out event, although it is not a no-op (it still tears the
session down). -/
theorem c4_handler_counterexample :
    (handle_license_expiration true false (.err "no app state")).sent = none
    ∧ (handle_license_expiration true false (.err "no app state")).queued = none
    ∧ (handle_license_expiration true false (.err "no app state")).sessionEnded = true :=
  ⟨rfl, rfl, rfl⟩

/-- C4 amended: the handler is a no-op when not clocked in; when clocked in
and the API client is constructed, exactly one clock_out event with reason
license_expired is produced and it is either sent or queued, never both and
never neither; when client construction fails, the teardown still runs but
no event is sent or queued. -/
theorem c4_invalidation_handler :
    (∀ (clientOk : Bool) (post : PostResult),
        handle_license_expiration false clientOk post
          = { sessionEnded := false, sent := none, queued := none })
  ∧ (∀ post : PostResult,
        ((handle_license_expiration true true post).sent = some licenseExpiredEvent
          ∧ (handle_license_expiration true true post).queued = none)
        ∨ ((handle_license_expiration true true post).sent = none
          ∧ (handle_license_expiration true true post).queued = some licenseExpiredEvent))
  ∧ (∀ post : PostResult,
        (handle_license_expiration true false post).sent = none
        ∧ (handle_license_expiration true false post).queued = none
        ∧ (handle_license_expiration true false post).sessionEnded = true) := by
  refine ⟨?_, ?_, ?_⟩
  · intro clientOk post
    rfl
  · intro post
    cases post with
    | ok code => exact Or.inl ⟨rfl, rfl⟩
    | err msg => exact Or.inr ⟨rfl, rfl⟩
  · intro post
    exact ⟨rfl, rfl, rfl⟩

end LicenseMonitor

/-- C10: a license_updated / license_renewed / license_activated stream event
without a "valid" field, and a 2xx license-check body without a "valid"
field, are both handled exactly like an explicit valid = false: the stored
state becomes invalid and the invalidation path is invoked. -/
theorem c10_missing_valid_is_invalid :
    (∀ (statusField : Option String) (now : Int),
        LicenseStream.handle_license_update none statusField now
          = LicenseStream.handle_license_update (some false) statusField now
        ∧ (LicenseStream.handle_license_update none statusField now).1.license_valid
            = some false
        ∧ (LicenseStream.handle_license_update none statusField now).2 = true)
  ∧ (∀ (st : LicenseMonitor.LicenseState) (statusField : Option String) (now : Int),
        LicenseMonitor.check_license_and_handle_expiration st
            (.success none statusField) now
          = LicenseMonitor.check_license_and_handle_expiration st
            (.success (some false) statusField) now
        ∧ (LicenseMonitor.check_license_and_handle_expiration st
            (.success none statusField) now).state.license_valid = some false
        ∧ (LicenseMonitor.check_license_and_handle_expiration st
            (.success none statusField) now).handlerInvoked = true) := by
  constructor
  · intro statusField now
    exact ⟨rfl, rfl, rfl⟩
  · intro st statusField now
    exact ⟨rfl, rfl, rfl⟩

/-! ## Properties of the license stream -/

namespace LicenseStream

theorem min_cap_mul_pow (x i : Nat) :
    min (min x MAX_BACKOFF * 2 ^ i) MAX_BACKOFF = min (x * 2 ^ i) MAX_BACKOFF := by
  rcases le_total x MAX_BACKOFF with h | h
  · rw [min_eq_left h]
  · rw [min_eq_right h]
    have hpow : (1 : Nat) ≤ 2 ^ i := Nat.one_le_two_pow
    have h1 : MAX_BACKOFF ≤ MAX_BACKOFF * 2 ^ i :=
      le_mul_of_one_le_right (Nat.zero_le _) hpow
    have h2 : MAX_BACKOFF ≤ x * 2 ^ i :=
      le_trans h (le_mul_of_one_le_right (Nat.zero_le _) hpow)
    rw [min_eq_right h1, min_eq_right h2]

theorem streamLoop_errOther_delays : ∀ (n b : Nat), b ≤ MAX_BACKOFF →
    (streamLoop (List.replicate n .errOther) b 0).delays
      = (List.range n).map (fun i => min (b * 2 ^ i) MAX_BACKOFF)
  | 0, b, _ => by simp [streamLoop]
  | n + 1, b, hb => by
    rw [List.replicate_succ]
    simp only [streamLoop]
    rw [streamLoop_errOther_delays n (min (b * 2) MAX_BACKOFF) (min_le_right _ _)]
    rw [List.range_succ_eq_map]
    simp only [List.map_cons, List.map_map]
    congr 1
    · rw [pow_zero, Nat.mul_one]
      exact (min_eq_left hb).symm
    · apply List.map_congr_left
      intro i _
      simp only [Function.comp_apply]
      rw [min_cap_mul_pow]
      congr 1
      rw [pow_succ]
      rw [Nat.mul_right_comm]
      exact Nat.mul_assoc b (2 ^ i) 2

/-- C6: from a fresh start, n consecutive non-auth connection failures sleep
exactly min(2^i, 60) seconds before reconnect i, giving the sequence
1, 2, 4, 8, 16, 32, 60, 60, ...; and after any successful connection the very
next reconnect delay is 1 second again. -/
theorem c6_stream_backoff_sequence :
    (∀ n : Nat, (start_license_stream (List.replicate n .errOther)).delays
        = (List.range n).map (fun i => min (2 ^ i) MAX_BACKOFF))
  ∧ (start_license_stream (List.replicate 8 .errOther)).delays
      = [1, 2, 4, 8, 16, 32, 60, 60]
  ∧ (∀ (rest : List ConnOutcome) (backoff auth : Nat),
        (streamLoop (.ok :: rest) backoff auth).delays.head? = some 1) := by
  refine ⟨?_, ?_, ?_⟩
  · intro n
    unfold start_license_stream
    rw [streamLoop_errOther_delays n 1 (by decide)]
    simp
  · rfl
  · intro rest backoff auth
    rfl

/-- C7: three consecutive authentication failures stop the reconnect loop
after exactly those three attempts, whatever outcomes would follow; and a
non-auth outcome (error or clean disconnect) makes the prior auth-failure
count irrelevant, i.e. resets it. -/
theorem c7_auth_circuit_breaker :
    (∀ (rest : List ConnOutcome) (backoff : Nat),
        streamLoop (.errAuth :: .errAuth :: .errAuth :: rest) backoff 0
          = { delays := [backoff, min (backoff * 2) MAX_BACKOFF],
              stopped := true, attempts := 3 })
  ∧ (∀ (rest : List ConnOutcome) (backoff a b : Nat),
        streamLoop (.errOther :: rest) backoff a
          = streamLoop (.errOther :: rest) backoff b)
  ∧ (∀ (rest : List ConnOutcome) (backoff a b : Nat),
        streamLoop (.ok :: rest) backoff a = streamLoop (.ok :: rest) backoff b) := by
  refine ⟨?_, ?_, ?_⟩
  · intro rest backoff
    simp [streamLoop, MAX_AUTH_FAILURES]
  · intro rest backoff a b
    rfl
  · intro rest backoff a b
    rfl

end LicenseStream

/-! ## Properties of the job poller -/

namespace JobPolling

/-- C9: the first fetch omits the since parameter; a successful fetch sets
the cursor to the server's cursor value no matter how individual jobs fared;
every returned job is handed to process_job in order even when earlier jobs
failed; and a failed fetch leaves the cursor unchanged. -/
theorem c9_job_poller_cursor :
    (∀ (fetch : FetchResult) (runJob : Job → Bool),
        (poll_jobs none fetch runJob).endpoint = "/api/ingest/jobs")
  ∧ jobs_endpoint (some "c1") = "/api/ingest/jobs?since=c1"
  ∧ (∀ (lastCursor : Option String) (resp : JobsResponse) (runJob : Job → Bool)
        (c : String), resp.cursor = some c →
        (poll_jobs lastCursor (.ok resp) runJob).cursor = some c)
  ∧ (∀ (lastCursor : Option String) (resp : JobsResponse) (runJob : Job → Bool),
        (poll_jobs lastCursor (.ok resp) runJob).processed.map Prod.fst
            = resp.jobs.getD []
        ∧ ∀ j ∈ resp.jobs.getD [],
            (j, runJob j) ∈ (poll_jobs lastCursor (.ok resp) runJob).processed)
  ∧ (∀ (lastCursor : Option String) (msg : String) (runJob : Job → Bool),
        (poll_jobs lastCursor (.err msg) runJob).cursor = lastCursor) := by
  refine ⟨?_, ?_, ?_, ?_, ?_⟩
  · intro fetch runJob
    cases fetch <;> rfl
  · rfl
  · intro lastCursor resp runJob c hc
    simp [poll_jobs, hc]
  · intro lastCursor resp runJob
    constructor
    · show ((resp.jobs.getD []).map (fun j => (j, runJob j))).map Prod.fst
          = resp.jobs.getD []
      rw [List.map_map]
      exact List.map_id'' (fun _ => rfl) _
    · intro j hj
      exact List.mem_map.mpr ⟨j, hj, rfl⟩
  · intro lastCursor msg runJob
    rfl

/-- Concrete instantiation of C9: the scenario poll with no cursor and a
response carrying job j1 and cursor c1 makes the next poll use since=c1. -/
theorem c9_job_poller_cursor_witness :
    (poll_jobs none (.ok Samples.respJ1) (fun _ => true)).cursor = some "c1"
    ∧ jobs_endpoint ((poll_jobs none (.ok Samples.respJ1) (fun _ => true)).cursor)
        = "/api/ingest/jobs?since=c1" := by
  have h := c9_job_poller_cursor.2.2.1 none Samples.respJ1 (fun _ => true) "c1" rfl
  refine ⟨h, ?_⟩
  rw [h]
  rfl

end JobPolling

end TrackEx
